import Mathlib

set_option autoImplicit false

/-!
Shallow embedding of the one-time-code (OTC) session lifecycle and the
WebSocket connection-registry / notification fan-out of the DocumentEdit
repository.

Sources embedded:
* the `/auth/request-otp` and `/auth/verify-otp` handlers
  (src/unnamed/part_001, src/unnamed/part_002, src/unnamed/part_003,
  src/netlify/functions/api.ts): the Mongo collection `otp_sessions` is
  modelled as a list of sessions looked up by email (`findOne`), written
  with `updateOne(..., {upsert: true})` (replace-first-or-append) and
  `deleteOne` (erase first match); `new Date()` comparisons become
  integer millisecond timestamps;
* the user provisioning step of `/auth/verify-otp` (`users` collection:
  `findOne` by email, `insertOne` with the hard-coded admin email check);
* the WebSocket module of src/server/email.ts: the module-level
  `Set<WSClient>` becomes a list of clients keyed by a numeric handle id
  (object identity), the `message`/`close`/`error` handlers and the two
  notify functions are translated directly.  A successful `JSON.parse`
  of an incoming frame is modelled as `some` parsed message, a parse
  failure (the `catch` branch) as `none`.  Pushed frames are modelled as
  the record passed to `JSON.stringify` (the serializer is injective on
  these fixed shapes), paired with the id of the receiving client.
-/

namespace DocumentEdit

/-! ### OTP session store -/

/-- One document of the `otp_sessions` collection:
`{ email, fullName, otp, expiresAt }`, with `expiresAt` in epoch
milliseconds. -/
structure OTPSession where
  email : String
  fullName : String
  otp : String
  expiresAt : Int
  deriving DecidableEq, Repr

/-- The `otp_sessions` collection (unique index on `email` is stated
separately as `wfStore`). -/
abbrev SessionStore := List OTPSession

/-- Embeds `db.collection("otp_sessions").updateOne({email}, {$set:
{email, fullName, otp, expiresAt}}, {upsert: true})`: replace the first
document with this email, or append a new document when none exists. -/
def createOTPSession : SessionStore → OTPSession → SessionStore
  | [], s => [s]
  | t :: ts, s => if t.email = s.email then s :: ts else t :: createOTPSession ts s

/-- Embeds `db.collection("otp_sessions").findOne({email})`. -/
def getOTPSession (store : SessionStore) (email : String) : Option OTPSession :=
  store.find? (fun s => s.email == email)

/-- Embeds `db.collection("otp_sessions").deleteOne({email})`: erase the
first document with this email; a miss is not an error. -/
def deleteOTPSession : SessionStore → String → SessionStore
  | [], _ => []
  | t :: ts, email => if t.email = email then ts else t :: deleteOTPSession ts email

/-- The unique index on `otp_sessions.email` created by
src/server/db-init.ts: no two documents share an email. -/
def wfStore (store : SessionStore) : Prop :=
  (store.map OTPSession.email).Nodup

instance (store : SessionStore) : Decidable (wfStore store) :=
  List.nodupDecidable _

/-- Outcome of the verification core of the `/auth/verify-otp` handler. -/
inductive VerifyResult where
  | noSession
  | expired
  | mismatch
  | success (session : OTPSession)
  deriving DecidableEq, Repr

/-- The verification core of the `/auth/verify-otp` handler
(src/unnamed/part_002 lines 130-144, identically src/unnamed/part_001
lines 95-112): fetch the session; absent → `noSession`; `now >
expiresAt` → delete the session and `expired`; wrong code → `mismatch`
with the store untouched; match → delete the session and succeed with
the stored session.  Returns the result together with the store after
the call. -/
def verifyOTP (store : SessionStore) (email otp : String) (now : Int) :
    VerifyResult × SessionStore :=
  match getOTPSession store email with
  | none => (.noSession, store)
  | some session =>
    if now > session.expiresAt then
      (.expired, deleteOTPSession store email)
    else if session.otp ≠ otp then
      (.mismatch, store)
    else
      (.success session, deleteOTPSession store email)

/-! ### User provisioning on successful verification -/

/-- One document of the `users` collection (the fields used by the
verify-otp handler). -/
structure User where
  email : String
  fullName : String
  role : String
  deriving DecidableEq, Repr

/-- Embeds `db.collection("users").findOne({email})`. -/
def getUserByEmail (users : List User) (email : String) : Option User :=
  users.find? (fun u => u.email == email)

/-- Embeds `db.collection("users").insertOne(user)`. -/
def createUser (users : List User) (user : User) : List User :=
  users ++ [user]

/-- Outcome of the full `/auth/verify-otp` handler. -/
inductive LoginResult where
  | noSession
  | expired
  | mismatch
  | success (user : User)
  deriving DecidableEq, Repr

/-- The full `/auth/verify-otp` handler (src/unnamed/part_001 lines
86-139, src/unnamed/part_002 lines 122-171): run the verification core;
on success look the user up by email and, when absent, insert
`{email: session.email, fullName: session.fullName, role: email ===
"abhijeet18012001@gmail.com" ? "admin" : "user"}`; the response carries
the (found or created) user. -/
def verifyOtpHandler (store : SessionStore) (users : List User)
    (email otp : String) (now : Int) :
    LoginResult × SessionStore × List User :=
  match verifyOTP store email otp now with
  | (.noSession, store1) => (.noSession, store1, users)
  | (.expired, store1) => (.expired, store1, users)
  | (.mismatch, store1) => (.mismatch, store1, users)
  | (.success session, store1) =>
    match getUserByEmail users email with
    | some user => (.success user, store1, users)
    | none =>
      let user : User :=
        { email := session.email
          fullName := session.fullName
          role := if email = "abhijeet18012001@gmail.com" then "admin" else "user" }
      (.success user, store1, createUser users user)

/-! ### Store lemmas -/

theorem getOTPSession_eq_none_of_not_mem (store : SessionStore) (email : String)
    (h : email ∉ store.map OTPSession.email) :
    getOTPSession store email = none := by
  induction store with
  | nil => rfl
  | cons t ts ih =>
    simp only [List.map_cons, List.mem_cons, not_or] at h
    simp only [getOTPSession, List.find?_cons]
    have hne : (t.email == email) = false := by
      simp [beq_eq_false_iff_ne]
      exact fun he => h.1 he.symm
    rw [hne]
    exact ih h.2

theorem getOTPSession_email (store : SessionStore) (email : String)
    (session : OTPSession) (h : getOTPSession store email = some session) :
    session.email = email := by
  have := List.find?_some h
  exact eq_of_beq this

theorem getOTPSession_deleteOTPSession_self (store : SessionStore) (email : String)
    (hwf : wfStore store) :
    getOTPSession (deleteOTPSession store email) email = none := by
  induction store with
  | nil => rfl
  | cons t ts ih =>
    simp only [wfStore, List.map_cons, List.nodup_cons] at hwf
    by_cases he : t.email = email
    · simp only [deleteOTPSession, if_pos he]
      apply getOTPSession_eq_none_of_not_mem
      rw [← he]
      exact hwf.1
    · simp only [deleteOTPSession, if_neg he]
      simp only [getOTPSession, List.find?_cons]
      have hne : (t.email == email) = false := by
        simpa [beq_eq_false_iff_ne] using he
      rw [hne]
      exact ih hwf.2

theorem getOTPSession_createOTPSession_self (store : SessionStore)
    (s : OTPSession) :
    getOTPSession (createOTPSession store s) s.email = some s := by
  induction store with
  | nil => simp [createOTPSession, getOTPSession]
  | cons t ts ih =>
    by_cases he : t.email = s.email
    · simp [createOTPSession, if_pos he, getOTPSession]
    · simp only [createOTPSession, if_neg he]
      simp only [getOTPSession, List.find?_cons]
      have hne : (t.email == s.email) = false := by
        simpa [beq_eq_false_iff_ne] using he
      rw [hne]
      exact ih

theorem verifyOTP_success_store (store : SessionStore) (email otp : String)
    (now : Int) (session : OTPSession)
    (h : (verifyOTP store email otp now).1 = .success session) :
    (verifyOTP store email otp now).2 = deleteOTPSession store email := by
  unfold verifyOTP at h ⊢
  cases hget : getOTPSession store email with
  | none => simp [hget] at h
  | some s =>
    simp only [hget] at h ⊢
    by_cases hexp : now > s.expiresAt
    · simp [if_pos hexp] at h
    · simp only [if_neg hexp] at h ⊢
      by_cases hne : s.otp ≠ otp
      · simp [if_pos hne] at h
      · simp [if_neg hne]

/-! ### Connection registry (src/server/email.ts, WebSocket section) -/

/-- `WebSocket.OPEN` readyState constant of the `ws` library. -/
def wsOPEN : Nat := 1

/-- One member of the module-level `clients : Set<WSClient>`:
`{ ws, userId?, role? }`.  `id` stands for the object identity of the
underlying socket (each accepted connection creates a fresh object);
`readyState` is the socket state checked by the notify functions. -/
structure WSClient where
  id : Nat
  readyState : Nat
  userId : Option String
  role : Option String
  deriving DecidableEq, Repr

/-- The registry: the module-level `clients` set. -/
abbrev Registry := List WSClient

/-- A client-to-server frame after a successful `JSON.parse`: either a
`{type:"register", userId, role}` announcement or a frame with any
other `type`, which the handler ignores. -/
inductive ClientMessage where
  | registerMsg (userId : Option String) (role : Option String)
  | otherMsg (msgType : String)
  deriving DecidableEq, Repr

/-- The `ws.on('message', ...)` handler of `setupWebSocket`
(src/server/email.ts websocket section, lines 127-139): `none` models a
`JSON.parse` failure, caught and logged with the connection left
untouched; a `register` frame sets `client.userId` and `client.role` on
the client with this handle (last write wins); any other frame is
ignored.  Returns the registry after the call and the log lines
emitted. -/
def handleClientMessage (clients : Registry) (cid : Nat)
    (parsed : Option ClientMessage) : Registry × List String :=
  match parsed with
  | none => (clients, ["WebSocket message parse error"])
  | some (.registerMsg uid r) =>
    (clients.map fun c =>
      if c.id = cid then { c with userId := uid, role := r } else c,
     ["Client registered"])
  | some (.otherMsg _) => (clients, [])

/-- The `ws.on('close', ...)` and `ws.on('error', ...)` handlers:
`clients.delete(client)` — remove the client with this handle;
deleting an absent member is a no-op of `Set.delete`. -/
def removeClient (clients : Registry) (cid : Nat) : Registry :=
  clients.filter fun c => c.id != cid

/-! ### Notification dispatcher (src/server/email.ts, WebSocket section) -/

/-- The argument record of `notifyNewImageUpload`. -/
structure ImageUploadEvent where
  id : String
  userId : String
  employeeId : String
  displayName : String
  originalFileName : String
  originalFilePath : String
  status : String
  uploadedAt : Int
  deriving DecidableEq, Repr

/-- The argument record of `notifyImageEdited`. -/
structure ImageEditedEvent where
  id : String
  userId : String
  employeeId : String
  displayName : String
  originalFileName : String
  originalFilePath : String
  editedFileName : String
  editedFilePath : String
  status : String
  uploadedAt : Int
  completedAt : Int
  deriving DecidableEq, Repr

/-- The record passed to `JSON.stringify` for a pushed frame:
`{ type, data }`. -/
structure WSMessage (α : Type) where
  msgType : String
  data : α
  deriving DecidableEq, Repr

/-- `notifyNewImageUpload` (src/server/email.ts websocket section,
lines 158-179): push `{type:"new_image_upload", data:imageRequest}` to
every client whose socket is OPEN and whose role is `'admin'`.  The
result lists the sends performed, in registry order, as (receiving
client id, message). -/
def notifyNewImageUpload (clients : Registry) (imageRequest : ImageUploadEvent) :
    List (Nat × WSMessage ImageUploadEvent) :=
  (clients.filter fun c => c.readyState == wsOPEN && c.role == some "admin").map
    fun c => (c.id, ⟨"new_image_upload", imageRequest⟩)

/-- `notifyImageEdited` (src/server/email.ts websocket section, lines
181-205): push `{type:"image_edited", data:imageRequest}` to every
client whose socket is OPEN and whose userId equals
`imageRequest.userId`. -/
def notifyImageEdited (clients : Registry) (imageRequest : ImageEditedEvent) :
    List (Nat × WSMessage ImageEditedEvent) :=
  (clients.filter fun c => c.readyState == wsOPEN && c.userId == some imageRequest.userId).map
    fun c => (c.id, ⟨"image_edited", imageRequest⟩)

/-- A sample upload event used in concrete dispatch scenarios. -/
def sampleUpload : ImageUploadEvent :=
  { id := "req1", userId := "A", employeeId := "E1", displayName := "Alice"
    originalFileName := "photo.png"
    originalFilePath := "uploads/original/photo.png"
    status := "pending", uploadedAt := 0 }

/-- A sample completed-edit event, for submitter identity "A". -/
def sampleEdited : ImageEditedEvent :=
  { id := "req1", userId := "A", employeeId := "E1", displayName := "Alice"
    originalFileName := "photo.png"
    originalFilePath := "uploads/original/photo.png"
    editedFileName := "photo-edited.png"
    editedFilePath := "uploads/edited/photo-edited.png"
    status := "completed", uploadedAt := 0, completedAt := 5 }

/-! ### Claim theorems: OTC session lifecycle -/

/-- C1: for every identity with a stored OTC session and every submitted
code, if the verification time is later than the session's expires-at,
then verify returns ExpiredError regardless of whether the submitted
code equals the stored code, and the session for that identity is
deleted: a subsequent get for that identity finds no session. -/
theorem c1_expiry_precedence (store : SessionStore) (email otp : String)
    (now : Int) (session : OTPSession)
    (hwf : wfStore store)
    (hget : getOTPSession store email = some session)
    (hexp : now > session.expiresAt) :
    (verifyOTP store email otp now).1 = .expired
    ∧ getOTPSession (verifyOTP store email otp now).2 email = none := by
  have h1 : verifyOTP store email otp now = (.expired, deleteOTPSession store email) := by
    unfold verifyOTP
    simp [hget, if_pos hexp]
  rw [h1]
  exact ⟨rfl, getOTPSession_deleteOTPSession_self store email hwf⟩

theorem c1_expiry_precedence_witness :
    (verifyOTP [⟨"a@x.com", "Alice", "482913", 600000⟩] "a@x.com" "482913" 601000).1
      = .expired
    ∧ getOTPSession
        (verifyOTP [⟨"a@x.com", "Alice", "482913", 600000⟩] "a@x.com" "482913" 601000).2
        "a@x.com" = none :=
  c1_expiry_precedence [⟨"a@x.com", "Alice", "482913", 600000⟩] "a@x.com" "482913"
    601000 ⟨"a@x.com", "Alice", "482913", 600000⟩ (by decide) (by decide) (by decide)

/-- C2: after a verify call that succeeds, the session is deleted, so a
second verify call with the same identity and the same code (at any
later time) returns NoSessionError. -/
theorem c2_single_use (store : SessionStore) (email otp : String)
    (now now2 : Int) (session : OTPSession)
    (hwf : wfStore store)
    (hres : (verifyOTP store email otp now).1 = .success session) :
    (verifyOTP (verifyOTP store email otp now).2 email otp now2).1 = .noSession := by
  rw [verifyOTP_success_store store email otp now session hres]
  unfold verifyOTP
  rw [getOTPSession_deleteOTPSession_self store email hwf]

theorem c2_single_use_witness :
    (verifyOTP
        (verifyOTP [⟨"a@x.com", "Alice", "482913", 600000⟩] "a@x.com" "482913" 599000).2
        "a@x.com" "482913" 601000).1 = .noSession :=
  c2_single_use [⟨"a@x.com", "Alice", "482913", 600000⟩] "a@x.com" "482913"
    599000 601000 ⟨"a@x.com", "Alice", "482913", 600000⟩ (by decide) (by decide)

/-- C3: the store holds at most one OTC session per identity: after two
sequential put calls for the same identity with different codes, get
returns only the second code, and verifying the first code never
succeeds, at any time (it hits mismatch before the second session's
expiry and expiry after it). -/
theorem c3_single_active_session (store : SessionStore)
    (e f1 f2 c1 c2 : String) (t1 t2 : Int) (hne : c1 ≠ c2) :
    getOTPSession
        (createOTPSession (createOTPSession store ⟨e, f1, c1, t1⟩) ⟨e, f2, c2, t2⟩) e
      = some ⟨e, f2, c2, t2⟩
    ∧ ∀ (now : Int) (s : OTPSession),
        (verifyOTP
            (createOTPSession (createOTPSession store ⟨e, f1, c1, t1⟩) ⟨e, f2, c2, t2⟩)
            e c1 now).1 ≠ VerifyResult.success s := by
  have hget : getOTPSession
      (createOTPSession (createOTPSession store ⟨e, f1, c1, t1⟩) ⟨e, f2, c2, t2⟩) e
      = some ⟨e, f2, c2, t2⟩ :=
    getOTPSession_createOTPSession_self (createOTPSession store ⟨e, f1, c1, t1⟩)
      ⟨e, f2, c2, t2⟩
  refine ⟨hget, ?_⟩
  intro now s
  unfold verifyOTP
  simp only [hget]
  by_cases hexp : now > (OTPSession.mk e f2 c2 t2).expiresAt
  · simp [if_pos hexp]
  · simp only [if_neg hexp]
    have hotp : (OTPSession.mk e f2 c2 t2).otp ≠ c1 := Ne.symm hne
    simp [if_pos hotp]

theorem c3_single_active_session_witness :
    getOTPSession
        (createOTPSession
          (createOTPSession [] ⟨"a@x.com", "Alice", "111111", 600000⟩)
          ⟨"a@x.com", "Alice", "222222", 900000⟩) "a@x.com"
      = some ⟨"a@x.com", "Alice", "222222", 900000⟩
    ∧ (verifyOTP
        (createOTPSession
          (createOTPSession [] ⟨"a@x.com", "Alice", "111111", 600000⟩)
          ⟨"a@x.com", "Alice", "222222", 900000⟩) "a@x.com" "111111" 300000).1
      ≠ VerifyResult.success ⟨"a@x.com", "Alice", "111111", 600000⟩ :=
  ⟨(c3_single_active_session [] "a@x.com" "Alice" "Alice" "111111" "222222"
      600000 900000 (by decide)).1,
   (c3_single_active_session [] "a@x.com" "Alice" "Alice" "111111" "222222"
      600000 900000 (by decide)).2 300000 ⟨"a@x.com", "Alice", "111111", 600000⟩⟩

/-- C5: on a stored unexpired session, a wrong submitted code fails with
MismatchError and the store is returned unchanged, so a subsequent
verify with the correct code before expiry still succeeds. -/
theorem c5_mismatch_preserves_session (store : SessionStore) (email otp : String)
    (now : Int) (session : OTPSession)
    (hget : getOTPSession store email = some session)
    (hexp : ¬ now > session.expiresAt)
    (hne : session.otp ≠ otp) :
    verifyOTP store email otp now = (.mismatch, store)
    ∧ ∀ now2 : Int, ¬ now2 > session.expiresAt →
        (verifyOTP store email session.otp now2).1 = .success session := by
  constructor
  · unfold verifyOTP
    simp [hget, if_neg hexp, if_pos hne]
  · intro now2 h2
    unfold verifyOTP
    simp [hget, if_neg h2]

theorem c5_mismatch_preserves_session_witness :
    verifyOTP [⟨"a@x.com", "Alice", "482913", 600000⟩] "a@x.com" "000000" 300000
      = (.mismatch, [⟨"a@x.com", "Alice", "482913", 600000⟩])
    ∧ (verifyOTP [⟨"a@x.com", "Alice", "482913", 600000⟩] "a@x.com" "482913" 599000).1
      = .success ⟨"a@x.com", "Alice", "482913", 600000⟩ :=
  ⟨(c5_mismatch_preserves_session [⟨"a@x.com", "Alice", "482913", 600000⟩]
      "a@x.com" "000000" 300000 ⟨"a@x.com", "Alice", "482913", 600000⟩
      (by decide) (by decide) (by decide)).1,
   (c5_mismatch_preserves_session [⟨"a@x.com", "Alice", "482913", 600000⟩]
      "a@x.com" "000000" 300000 ⟨"a@x.com", "Alice", "482913", 600000⟩
      (by decide) (by decide) (by decide)).2 599000 (by decide)⟩

/-- C10: on a successful verification for an identity with no existing
user record, the handler creates a user whose role is "admin" if and
only if the identity equals the hard-coded email
"abhijeet18012001@gmail.com", and "user" otherwise; the login response
carries that role. -/
theorem c10_admin_role_assignment (store : SessionStore) (users : List User)
    (email otp : String) (now : Int) (session : OTPSession)
    (hget : getOTPSession store email = some session)
    (hexp : ¬ now > session.expiresAt)
    (hotp : session.otp = otp)
    (hnouser : getUserByEmail users email = none) :
    (verifyOtpHandler store users email otp now).1 =
      .success ⟨session.email, session.fullName,
        if email = "abhijeet18012001@gmail.com" then "admin" else "user"⟩
    ∧ (verifyOtpHandler store users email otp now).2.2 =
        users ++ [⟨session.email, session.fullName,
          if email = "abhijeet18012001@gmail.com" then "admin" else "user"⟩]
    ∧ ((if email = "abhijeet18012001@gmail.com" then "admin" else "user") = "admin"
        ↔ email = "abhijeet18012001@gmail.com") := by
  have hv : verifyOTP store email otp now
      = (.success session, deleteOTPSession store email) := by
    unfold verifyOTP
    simp [hget, if_neg hexp, hotp]
  refine ⟨?_, ?_, ?_⟩
  · unfold verifyOtpHandler
    rw [hv]
    simp [hnouser]
  · unfold verifyOtpHandler
    rw [hv]
    simp [hnouser, createUser]
  · by_cases h : email = "abhijeet18012001@gmail.com"
    · simp [h]
    · simp only [if_neg h]
      constructor
      · intro habs
        exact absurd habs (by decide)
      · intro habs
        exact absurd habs h

theorem c10_admin_role_assignment_witness :
    (verifyOtpHandler
        [⟨"abhijeet18012001@gmail.com", "Abhijeet", "482913", 600000⟩] []
        "abhijeet18012001@gmail.com" "482913" 300000).1 =
      .success ⟨"abhijeet18012001@gmail.com", "Abhijeet",
        if "abhijeet18012001@gmail.com" = "abhijeet18012001@gmail.com"
          then "admin" else "user"⟩
    ∧ (verifyOtpHandler
        [⟨"abhijeet18012001@gmail.com", "Abhijeet", "482913", 600000⟩] []
        "abhijeet18012001@gmail.com" "482913" 300000).2.2 =
        [] ++ [⟨"abhijeet18012001@gmail.com", "Abhijeet",
          if "abhijeet18012001@gmail.com" = "abhijeet18012001@gmail.com"
            then "admin" else "user"⟩]
    ∧ ((if ("abhijeet18012001@gmail.com" : String) = "abhijeet18012001@gmail.com"
          then "admin" else "user") = "admin"
        ↔ ("abhijeet18012001@gmail.com" : String) = "abhijeet18012001@gmail.com") :=
  c10_admin_role_assignment
    [⟨"abhijeet18012001@gmail.com", "Abhijeet", "482913", 600000⟩] []
    "abhijeet18012001@gmail.com" "482913" 300000
    ⟨"abhijeet18012001@gmail.com", "Abhijeet", "482913", 600000⟩
    (by decide) (by decide) (by decide) (by decide)

/-! ### Claim theorems: connection registry and dispatcher -/

/-- C4: with three live registered connections tagged reviewer (role
'admin'), reviewer and submitter-identity "A", dispatching a new-upload
event sends exactly to the two reviewer connections and not to "A", and
dispatching the completed-edit event for submitter "A" sends exactly to
the connection tagged with identity "A"; the identity-targeted dispatch
tolerates zero matches (empty send list) and many matches (one send per
match) without error. -/
theorem c4_targeted_fanout :
    (notifyNewImageUpload
        [⟨1, wsOPEN, none, some "admin"⟩, ⟨2, wsOPEN, none, some "admin"⟩,
         ⟨3, wsOPEN, some "A", some "user"⟩] sampleUpload).map Prod.fst = [1, 2]
    ∧ (notifyImageEdited
        [⟨1, wsOPEN, none, some "admin"⟩, ⟨2, wsOPEN, none, some "admin"⟩,
         ⟨3, wsOPEN, some "A", some "user"⟩] sampleEdited).map Prod.fst = [3]
    ∧ notifyImageEdited
        [⟨1, wsOPEN, none, some "admin"⟩, ⟨2, wsOPEN, none, some "admin"⟩]
        sampleEdited = []
    ∧ (notifyImageEdited
        [⟨3, wsOPEN, some "A", some "user"⟩, ⟨4, wsOPEN, some "A", some "user"⟩]
        sampleEdited).map Prod.fst = [3, 4] := by
  refine ⟨?_, ?_, ?_, ?_⟩ <;> rfl

/-- C6 as stated is false on the code: the dispatcher pushes frames
tagged "new_image_upload", not "new_submission"; with a single open
reviewer connection the pushed payload's type field is
"new_image_upload". -/
theorem c6_payload_counterexample :
    ((notifyNewImageUpload [⟨1, wsOPEN, none, some "admin"⟩] sampleUpload).map
        fun send => send.2.msgType) = ["new_image_upload"]
    ∧ ("new_image_upload" : String) ≠ "new_submission" := by
  refine ⟨rfl, by decide⟩

/-- C6 (amended): for every new-upload event, the payload pushed to each
reviewer-matching connection is the record serialized by the dispatcher,
namely type "new_image_upload" with the event as data. -/
theorem c6_payload_shape (clients : Registry) (ev : ImageUploadEvent)
    (send : Nat × WSMessage ImageUploadEvent)
    (hmem : send ∈ notifyNewImageUpload clients ev) :
    send.2 = ⟨"new_image_upload", ev⟩ := by
  unfold notifyNewImageUpload at hmem
  rw [List.mem_map] at hmem
  obtain ⟨c, _, rfl⟩ := hmem
  rfl

theorem c6_payload_shape_witness :
    ((1, ⟨"new_image_upload", sampleUpload⟩) : Nat × WSMessage ImageUploadEvent).2
      = ⟨"new_image_upload", sampleUpload⟩ :=
  c6_payload_shape [⟨1, wsOPEN, none, some "admin"⟩] sampleUpload
    (1, ⟨"new_image_upload", sampleUpload⟩) (by decide)

theorem map_register_twice (clients : Registry) (cid : Nat)
    (u1 r1 u2 r2 : Option String) :
    ((clients.map fun c =>
        if c.id = cid then { c with userId := u1, role := r1 } else c).map
      fun c => if c.id = cid then { c with userId := u2, role := r2 } else c)
      = clients.map fun c =>
          if c.id = cid then { c with userId := u2, role := r2 } else c := by
  rw [List.map_map]
  apply List.map_congr_left
  intro c _
  by_cases h : c.id = cid
  · simp [Function.comp, h]
  · simp [Function.comp, h]

/-- C7: registering the same handle twice with different identity/role
values leaves the connection tagged only with the later call's values
(last-write-wins): the handler state after two register frames equals
the state after the second alone, so subsequent matching reflects only
the latest role; repeated registration raises no error. -/
theorem c7_register_last_write_wins (clients : Registry) (cid : Nat)
    (u1 r1 u2 r2 : Option String) :
    handleClientMessage
        (handleClientMessage clients cid (some (.registerMsg u1 r1))).1 cid
        (some (.registerMsg u2 r2))
      = handleClientMessage clients cid (some (.registerMsg u2 r2)) := by
  have h := map_register_twice clients cid u1 r1 u2 r2
  simp only [handleClientMessage]
  rw [h]

/-- C8: removal is idempotent: removing the same handle twice leaves the
registry as after the first removal, and removing a handle never added
leaves the registry unchanged; neither raises an error. -/
theorem c8_remove_idempotent :
    (∀ (clients : Registry) (cid : Nat),
        removeClient (removeClient clients cid) cid = removeClient clients cid)
    ∧ ∀ (clients : Registry) (cid : Nat),
        (∀ c ∈ clients, c.id ≠ cid) → removeClient clients cid = clients := by
  constructor
  · intro clients cid
    unfold removeClient
    rw [List.filter_filter]
    simp
  · intro clients cid h
    unfold removeClient
    rw [List.filter_eq_self]
    intro c hc
    simpa using h c hc

theorem c8_remove_idempotent_witness :
    removeClient (removeClient [⟨7, wsOPEN, none, none⟩] 7) 7
        = removeClient [⟨7, wsOPEN, none, none⟩] 7
    ∧ removeClient [⟨7, wsOPEN, none, none⟩] 9 = [⟨7, wsOPEN, none, none⟩] :=
  ⟨c8_remove_idempotent.1 [⟨7, wsOPEN, none, none⟩] 7,
   c8_remove_idempotent.2 [⟨7, wsOPEN, none, none⟩] 9 (by decide)⟩

/-- C9: an incoming frame that fails to parse as JSON is dropped with a
diagnostic log and without throwing: the handler returns, the registry
is unchanged (the connection remains a member), and the parse failure
is logged. -/
theorem c9_malformed_message_dropped (clients : Registry) (cid : Nat) :
    (handleClientMessage clients cid none).1 = clients
    ∧ (handleClientMessage clients cid none).2
        = ["WebSocket message parse error"] :=
  ⟨rfl, rfl⟩
